import Mathlib

/-!
Verification of the subdomain reservation / registration-draft logic of the
sahod-solutions repository (src/lib/firebase/registration.ts and its
enhanced variant, plus src/lib/firebase/cleanup.ts).

The Firestore collections are modelled as association lists from document id
to document data.  Timestamps are natural numbers (milliseconds).  A
fallible operation returns its thrown message (if any) together with the
store state after the call, so that partial writes before a throw are
visible in the model.
-/

namespace Sahod

/-- A Firestore collection: document id paired with document data. -/
abbrev Store (α : Type) : Type := List (String × α)

/-- `getDoc`: the first document whose id equals `k`. -/
def getDoc {α : Type} : Store α → String → Option α
  | [], _ => none
  | p :: tl, k => if p.1 == k then some p.2 else getDoc tl k

/-- `deleteDoc`: remove the document with id `k`. -/
def deleteDoc {α : Type} (st : Store α) (k : String) : Store α :=
  st.filter (fun p => p.1 != k)

/-- `setDoc` (full overwrite): create or replace the document at id `k`. -/
def setDoc {α : Type} (st : Store α) (k : String) (v : α) : Store α :=
  (k, v) :: deleteDoc st k

/-- `updateDoc` on an existing document: apply the field update `f` at id `k`. -/
def updateDoc {α : Type} (st : Store α) (k : String) (f : α → α) : Store α :=
  st.map (fun p => if p.1 == k then (p.1, f p.2) else p)

/-! Generic store lemmas. -/

theorem getDoc_deleteDoc_self {α : Type} (st : Store α) (k : String) :
    getDoc (deleteDoc st k) k = none := by
  induction st with
  | nil => rfl
  | cons p tl ih =>
    by_cases h : p.1 = k
    · simpa [deleteDoc, List.filter_cons, h] using ih
    · simpa [deleteDoc, List.filter_cons, h, getDoc] using ih

theorem getDoc_deleteDoc_ne {α : Type} (st : Store α) (k k' : String)
    (h : k' ≠ k) : getDoc (deleteDoc st k) k' = getDoc st k' := by
  induction st with
  | nil => rfl
  | cons p tl ih =>
    by_cases hp : p.1 = k
    · have hne : p.1 ≠ k' := by rw [hp]; exact fun hc => h hc.symm
      simpa [deleteDoc, List.filter_cons, hp, getDoc, hne, Ne.symm h] using ih
    · by_cases hk' : p.1 = k'
      · simp [deleteDoc, List.filter_cons, hp, getDoc, hk', h, Ne.symm h]
      · simpa [deleteDoc, List.filter_cons, hp, getDoc, hk'] using ih

theorem getDoc_setDoc_self {α : Type} (st : Store α) (k : String) (v : α) :
    getDoc (setDoc st k v) k = some v := by
  simp [setDoc, getDoc]

theorem getDoc_setDoc_ne {α : Type} (st : Store α) (k k' : String) (v : α)
    (h : k' ≠ k) : getDoc (setDoc st k v) k' = getDoc st k' := by
  have : k ≠ k' := fun hc => h hc.symm
  simp only [setDoc, getDoc, beq_iff_eq, this, if_false, if_neg this]
  exact getDoc_deleteDoc_ne st k k' h

theorem getDoc_updateDoc_self {α : Type} (st : Store α) (k : String)
    (f : α → α) : getDoc (updateDoc st k f) k = (getDoc st k).map f := by
  induction st with
  | nil => rfl
  | cons p tl ih =>
    by_cases h : p.1 = k
    · simp [updateDoc, getDoc, h]
    · simpa [updateDoc, getDoc, h] using ih

theorem getDoc_updateDoc_ne {α : Type} (st : Store α) (k k' : String)
    (f : α → α) (h : k' ≠ k) :
    getDoc (updateDoc st k f) k' = getDoc st k' := by
  induction st with
  | nil => rfl
  | cons p tl ih =>
    by_cases hp : p.1 = k
    · have hne : p.1 ≠ k' := by rw [hp]; exact fun hc => h hc.symm
      simpa [updateDoc, getDoc, hp, hne, Ne.symm h] using ih
    · by_cases hk' : p.1 = k'
      · simp [updateDoc, getDoc, hp, hk', h, Ne.symm h]
      · simpa [updateDoc, getDoc, hp, hk'] using ih

theorem getDoc_filter_of_kept {α : Type} (st : Store α)
    (q : String × α → Bool) (k : String) (v : α)
    (hget : getDoc st k = some v) (hq : q (k, v) = true) :
    getDoc (st.filter q) k = some v := by
  induction st with
  | nil => simp [getDoc] at hget
  | cons p tl ih =>
    by_cases h : p.1 = k
    · have hv : p.2 = v := by simpa [getDoc, h] using hget
      have hpkv : p = (k, v) := by
        cases p; simp_all
      subst hpkv
      simp [List.filter_cons, hq, getDoc]
    · have hget' : getDoc tl k = some v := by simpa [getDoc, h] using hget
      by_cases hqp : q p = true
      · simpa [List.filter_cons, hqp, getDoc, h] using ih hget'
      · simp only [Bool.not_eq_true] at hqp
        simpa [List.filter_cons, hqp] using ih hget'

/-!
## Subdomain registry data model

From src/types/subdomain.ts (`SubdomainDocument`, `SubdomainAvailabilityResult`)
and the enhanced `RegistrationService` (src/unnamed/part_003, second class).
-/

/-- `SubdomainDocument.status` union type from src/types/subdomain.ts. -/
inductive SubdomainStatus : Type
  | pending
  | reserved
  | active
  | expired
deriving DecidableEq, Repr

/-- `SubdomainDocument` from src/types/subdomain.ts. -/
structure SubdomainDocument : Type where
  subdomain : String
  companyId : Option String
  status : SubdomainStatus
  registrationId : Option String
  createdAt : Nat
  expiresAt : Option Nat
  updatedAt : Nat
deriving DecidableEq, Repr

/-- `SubdomainAvailabilityResult` from src/types/subdomain.ts;
`status` carries the string literals the code writes. -/
structure SubdomainAvailabilityResult : Type where
  available : Bool
  status : Option String := none
deriving DecidableEq, Repr

/-- The `subdomains` collection. -/
abbrev SubStore : Type := Store SubdomainDocument

/-- Milliseconds in 7 days (`7 * 24 * 60 * 60 * 1000`). -/
def sevenDaysMs : Nat := 7 * 24 * 60 * 60 * 1000

/-- The hard-coded reserved word list in `checkSubdomainAvailability`. -/
def reservedSubdomains : List String :=
  ["admin", "api", "www", "app", "dashboard", "staging", "dev", "test",
   "support", "help", "docs", "blog", "mail", "ftp", "cdn", "static",
   "portal", "kiosk", "reports", "analytics", "billing", "auth"]

/-- `subdomain.toLowerCase()` as a character map (ASCII lower-casing). -/
def jsToLowerCase (s : String) : String :=
  String.mk (s.data.map Char.toLower)

/-- The self-exclusion test
`excludeRegistrationId && data.registrationId === excludeRegistrationId`
(an empty exclusion string is falsy in JS, hence excluded). -/
def matchesExclusion (excludeRegistrationId : Option String)
    (recordRegistrationId : Option String) : Bool :=
  match excludeRegistrationId with
  | some e => e != "" && recordRegistrationId == some e
  | none => false

/-- `RegistrationService.checkSubdomainAvailability` (enhanced variant,
src/unnamed/part_003 lines 138-206).  Returns the availability result and
the store after the call (the expired-pending branch deletes the record). -/
def checkSubdomainAvailability (st : SubStore) (now : Nat)
    (subdomain : String) (excludeRegistrationId : Option String) :
    SubdomainAvailabilityResult × SubStore :=
  if subdomain.length < 3 then
    ({ available := false, status := some "too_short" }, st)
  else if reservedSubdomains.contains (jsToLowerCase subdomain) then
    ({ available := false, status := some "reserved" }, st)
  else
    match getDoc st subdomain with
    | none => ({ available := true }, st)
    | some data =>
      if matchesExclusion excludeRegistrationId data.registrationId then
        ({ available := true }, st)
      else
        match data.status, data.expiresAt with
        | SubdomainStatus.pending, some expiresAt =>
          if expiresAt < now then
            ({ available := true }, deleteDoc st subdomain)
          else
            ({ available := false,
               status := some (if data.status = SubdomainStatus.active
                               then "taken" else "reserved") }, st)
        | _, _ =>
          ({ available := false,
             status := some (if data.status = SubdomainStatus.active
                             then "taken" else "reserved") }, st)

/-- JS template-literal rendering of a nullable registration id. -/
def showRegistrationId : Option String → String
  | some r => r
  | none => "null"

/-- `RegistrationService.reserveSubdomain` (src/unnamed/part_003 lines
209-286).  An existing record with the same registration id only refreshes
`updatedAt`; a different owner throws the conflict error (re-wrapped by the
catch block); otherwise a fresh pending reservation is created with a
7-day expiry. -/
def reserveSubdomain (st : SubStore) (now : Nat)
    (subdomain : String) (registrationId : String) :
    Except String Unit × SubStore :=
  match getDoc st subdomain with
  | some data =>
    if data.registrationId == some registrationId then
      (Except.ok (),
       updateDoc st subdomain (fun r => { r with updatedAt := now }))
    else
      (Except.error
        ("Failed to reserve subdomain: Subdomain is already reserved by different registration: "
          ++ showRegistrationId data.registrationId), st)
  | none =>
    (Except.ok (),
     setDoc st subdomain
       { subdomain := subdomain
         companyId := none
         status := SubdomainStatus.pending
         registrationId := some registrationId
         createdAt := now
         expiresAt := some (now + sevenDaysMs)
         updatedAt := now })

/-- `RegistrationService.activateSubdomain` (src/unnamed/part_003 lines
289-314).  Throws (re-wrapped) if no record exists; otherwise sets the
company id, status `active`, and clears `expiresAt`. -/
def activateSubdomain (st : SubStore) (now : Nat)
    (subdomain : String) (companyId : String) :
    Except String Unit × SubStore :=
  match getDoc st subdomain with
  | none => (Except.error "Failed to activate subdomain", st)
  | some _ =>
    (Except.ok (),
     updateDoc st subdomain (fun r =>
       { r with companyId := some companyId
                status := SubdomainStatus.active
                expiresAt := none
                updatedAt := now }))

/-- The Firestore query
`where('status','==','pending'), where('expiresAt','<', now)` of
`cleanupExpiredReservations`; a missing/null `expiresAt` never matches a
range filter. -/
def isExpiredPending (now : Nat) (p : String × SubdomainDocument) : Bool :=
  p.2.status == SubdomainStatus.pending &&
    (match p.2.expiresAt with
     | some t => t < now
     | none => false)

/-- `RegistrationService.cleanupExpiredReservations` (src/unnamed/part_003
lines 317-347): query the expired pending reservations, return 0 when the
snapshot is empty, otherwise delete every matched document and return the
snapshot size. -/
def cleanupExpiredReservations (st : SubStore) (now : Nat) : Nat × SubStore :=
  let snapshot := st.filter (isExpiredPending now)
  if snapshot.isEmpty then (0, st)
  else (snapshot.length, st.filter (fun p => !(isExpiredPending now p)))

/-- The batch structure used by `cleanupExpiredReservations`: the code puts
every matched document into a single `writeBatch` and commits it once
(there is no 500-operation chunking in this function). -/
def cleanupReservationBatches (st : SubStore) (now : Nat) :
    List (List (String × SubdomainDocument)) :=
  let snapshot := st.filter (isExpiredPending now)
  if snapshot.isEmpty then [] else [snapshot]

/-!
## Registration draft data model

From src/types/registration.ts and the two `RegistrationService` variants
(src/lib/firebase/registration.ts and src/unnamed/part_003).  Fields are
`Option`-valued because a Firestore draft document only carries the fields
the saving step wrote.
-/

/-- `CompanyInfoFormData` (step 1 payload). -/
structure CompanyInfoFormData : Type where
  companyName : String
  industry : String
  address : String
deriving DecidableEq, Repr

/-- `AdminAccountFormData` (step 2 payload). -/
structure AdminAccountFormData : Type where
  fullName : String
  email : String
  phone : String
  password : String
  confirmPassword : String
  subdomain : String
deriving DecidableEq, Repr

/-- `TrialActivationFormData` (step 3 payload). -/
structure TrialActivationFormData : Type where
  termsAccepted : Bool
  privacyAccepted : Bool
  marketingOptIn : Bool
deriving DecidableEq, Repr

/-- A stored `draft_registrations` document (`RegistrationData`). -/
structure RegistrationData : Type where
  registrationId : Option String := none
  companyInfo : Option CompanyInfoFormData := none
  adminAccount : Option AdminAccountFormData := none
  trialActivation : Option TrialActivationFormData := none
  currentStep : Option Nat := none
  completedSteps : Option (List Nat) := none
  isTrialActivated : Option Bool := none
  companyCreated : Option Bool := none
  companyId : Option String := none
  userId : Option String := none
  createdAt : Option Nat := none
  updatedAt : Option Nat := none
  expiresAt : Option Nat := none
  completedAt : Option Nat := none
deriving DecidableEq, Repr

/-- The `draft_registrations` collection. -/
abbrev DraftStore : Type := Store RegistrationData

/-- Milliseconds in 14 days (the trial length). -/
def fourteenDaysMs : Nat := 14 * 24 * 60 * 60 * 1000

/-- The `subscription` object written into a company document. -/
structure SubscriptionInfo : Type where
  plan : String
  status : String
  trialStartDate : Nat
  trialEndDate : Nat
deriving DecidableEq, Repr

/-- The `setupProgress` object written into a company document. -/
structure SetupProgress : Type where
  companyInfo : Bool
  adminAccount : Bool
  businessDetails : Bool
  firstEmployee : Bool
  paymentMethod : Bool
  kioskSetup : Bool
  bankIntegration : Bool
deriving DecidableEq, Repr

/-- The company document written by `createCompanyFromRegistration`. -/
structure CompanyDoc : Type where
  id : String
  name : String
  industry : String
  address : String
  subdomain : String
  adminName : String
  adminEmail : String
  adminPhone : String
  subscription : SubscriptionInfo
  setupProgress : SetupProgress
  createdAt : Nat
  updatedAt : Nat
deriving DecidableEq, Repr

/-- The three collections the registration flow touches. -/
structure ServerState : Type where
  subdomains : SubStore
  drafts : DraftStore
  companies : Store CompanyDoc
deriving DecidableEq, Repr

/-- `RegistrationService.saveCompanyInfo` (src/unnamed/part_003 lines
361-392): `setDoc(..., { merge: true })` — listed fields are overwritten,
everything else on an existing draft is preserved; the draft is created if
absent.  Every save resets `createdAt`, `updatedAt` and the 7-day
`expiresAt`. -/
def saveCompanyInfo (st : DraftStore) (now : Nat) (rid : String)
    (companyData : CompanyInfoFormData) : DraftStore :=
  let base := (getDoc st rid).getD {}
  setDoc st rid
    { base with
      registrationId := some rid
      companyInfo := some companyData
      currentStep := some 1
      completedSteps := some [1]
      createdAt := some now
      updatedAt := some now
      expiresAt := some (now + sevenDaysMs) }

/-- `RegistrationService.saveAdminAccount` (src/unnamed/part_003 lines
395-453): first reserves the subdomain, then `updateDoc`s the draft with
the admin payload, `currentStep = 2` and the literal array `[1, 2]` as
`completedSteps`.  Errors are re-wrapped by the catch block; `updateDoc`
on a missing draft throws a store error. -/
def saveAdminAccount (subs : SubStore) (drafts : DraftStore) (now : Nat)
    (rid : String) (adminData : AdminAccountFormData) :
    Except String Unit × SubStore × DraftStore :=
  match reserveSubdomain subs now adminData.subdomain rid with
  | (Except.error e, subs') =>
    (Except.error ("Failed to save admin account: " ++ e), subs', drafts)
  | (Except.ok _, subs') =>
    match getDoc drafts rid with
    | none =>
      (Except.error "Failed to save admin account: No document to update",
       subs', drafts)
    | some _ =>
      (Except.ok (), subs',
       updateDoc drafts rid (fun d =>
         { d with
           adminAccount := some adminData
           currentStep := some 2
           completedSteps := some [1, 2]
           updatedAt := some now }))

/-- `RegistrationService.createCompanyFromRegistration` (src/unnamed/part_003
lines 488-581).  The generated `comp_<timestamp>_<random>` id is passed in
as `companyId` (the generator draws on ambient time/randomness).  The
company document is written before the subdomain is activated, so a failed
activation leaves the company document behind, as in the source. -/
def createCompanyFromRegistration (state : ServerState) (now : Nat)
    (rid : String) (companyId : String) :
    Except String (String × String) × ServerState :=
  match getDoc state.drafts rid with
  | none => (Except.error "Failed to create company from registration", state)
  | some regData =>
    match regData.companyInfo, regData.adminAccount with
    | some companyInfo, some adminAccount =>
      let companyDoc : CompanyDoc :=
        { id := companyId
          name := companyInfo.companyName
          industry := companyInfo.industry
          address := companyInfo.address
          subdomain := adminAccount.subdomain
          adminName := adminAccount.fullName
          adminEmail := adminAccount.email
          adminPhone := adminAccount.phone
          subscription :=
            { plan := "trial"
              status := "trial"
              trialStartDate := now
              trialEndDate := now + fourteenDaysMs }
          setupProgress :=
            { companyInfo := true
              adminAccount := true
              businessDetails := false
              firstEmployee := false
              paymentMethod := false
              kioskSetup := false
              bankIntegration := false }
          createdAt := now
          updatedAt := now }
      let companies1 := setDoc state.companies companyId companyDoc
      match activateSubdomain state.subdomains now adminAccount.subdomain companyId with
      | (Except.error _, subs') =>
        (Except.error "Failed to create company from registration",
         { state with companies := companies1, subdomains := subs' })
      | (Except.ok _, subs') =>
        let drafts' := updateDoc state.drafts rid (fun d =>
          { d with
            companyCreated := some true
            companyId := some companyId
            completedAt := some now })
        (Except.ok (companyId, adminAccount.subdomain),
         { subdomains := subs', drafts := drafts', companies := companies1 })
    | _, _ =>
      (Except.error "Failed to create company from registration", state)

/-- `RegistrationService.activateTrialAndCreateCompany` (src/unnamed/part_003
lines 456-485): saves the trial payload (`currentStep = 3`,
`completedSteps = [1, 2, 3]`) on the draft, then delegates to
`createCompanyFromRegistration` and returns the subdomain string. -/
def activateTrialAndCreateCompany (state : ServerState) (now : Nat)
    (rid : String) (trialData : TrialActivationFormData)
    (companyId : String) : Except String String × ServerState :=
  match getDoc state.drafts rid with
  | none => (Except.error "Failed to activate trial and create company", state)
  | some _ =>
    let drafts1 := updateDoc state.drafts rid (fun d =>
      { d with
        trialActivation := some trialData
        currentStep := some 3
        completedSteps := some [1, 2, 3]
        updatedAt := some now })
    let state1 := { state with drafts := drafts1 }
    match createCompanyFromRegistration state1 now rid companyId with
    | (Except.ok result, state2) => (Except.ok result.2, state2)
    | (Except.error _, state2) =>
      (Except.error "Failed to activate trial and create company", state2)

/-- The field normalisation in `getRegistration`
(src/lib/firebase/registration.ts lines 234-245): `||`-style fallbacks for
missing fields; the returned object carries only the listed fields. -/
def normalizeRegistration (data : RegistrationData) : RegistrationData :=
  { registrationId := data.registrationId
    currentStep := some
      (match data.currentStep with
       | some c => if c = 0 then 1 else c
       | none => 1)
    completedSteps := some (data.completedSteps.getD [])
    companyInfo := data.companyInfo
    adminAccount := data.adminAccount
    trialActivation := data.trialActivation
    isTrialActivated := some (data.isTrialActivated.getD false)
    companyCreated := some (data.companyCreated.getD false)
    createdAt := data.createdAt
    updatedAt := data.updatedAt }

/-- `RegistrationService.getRegistration`
(src/lib/firebase/registration.ts lines 220-253): missing document or a
document whose `expiresAt` has passed yields `null`. -/
def getRegistration (st : DraftStore) (now : Nat) (rid : String) :
    Option RegistrationData :=
  match getDoc st rid with
  | none => none
  | some data =>
    match data.expiresAt with
    | some expiresAt =>
      if expiresAt < now then none else some (normalizeRegistration data)
    | none => some (normalizeRegistration data)

/-- The superseded `getRegistration` variant (src/unnamed/part_003 lines
586-612), which returns the stored document without any expiry check. -/
def getRegistrationLegacy (st : DraftStore) (rid : String) :
    Option RegistrationData :=
  getDoc st rid

/-!
## Claim theorems
-/

/-- C1: after `reserveSubdomain s r1` succeeds on a fresh subdomain, a
second `reserveSubdomain s r2` with `r2 ≠ r1` before expiry fails with the
conflict error naming the competing registration id `r1`, and the store and
the pending record (owner `r1`, status pending, original expiry) are
unchanged by the failed call. -/
theorem reserve_conflict_names_competitor
    (st0 st1 : SubStore) (now0 now1 : Nat) (s r1 r2 : String)
    (hfresh : getDoc st0 s = none)
    (hres : reserveSubdomain st0 now0 s r1 = (Except.ok (), st1))
    (hne : r2 ≠ r1)
    (hnotexpired : now1 ≤ now0 + sevenDaysMs) :
    reserveSubdomain st1 now1 s r2 =
      (Except.error
        ("Failed to reserve subdomain: Subdomain is already reserved by different registration: "
          ++ r1), st1) ∧
    getDoc st1 s = some
      { subdomain := s
        companyId := none
        status := SubdomainStatus.pending
        registrationId := some r1
        createdAt := now0
        expiresAt := some (now0 + sevenDaysMs)
        updatedAt := now0 } := by
  simp only [reserveSubdomain, hfresh] at hres
  have hst1 : st1 = setDoc st0 s
      { subdomain := s
        companyId := none
        status := SubdomainStatus.pending
        registrationId := some r1
        createdAt := now0
        expiresAt := some (now0 + sevenDaysMs)
        updatedAt := now0 } := by
    have := congrArg Prod.snd hres
    simpa using this.symm
  subst hst1
  have hget := getDoc_setDoc_self st0 s
      { subdomain := s
        companyId := none
        status := SubdomainStatus.pending
        registrationId := some r1
        createdAt := now0
        expiresAt := some (now0 + sevenDaysMs)
        updatedAt := now0 }
  refine ⟨?_, hget⟩
  have hbeq : ((some r1 : Option String) == some r2) = false := by
    simp [beq_iff_eq]
    exact fun hc => hne hc.symm
  simp [reserveSubdomain, hget, hbeq, showRegistrationId]

/-- Witness for C1 at `s = "zzz"`, `r1 = "reg-1"`, `r2 = "reg-2"`. -/
theorem reserve_conflict_names_competitor_witness :
    reserveSubdomain
      (([("zzz",
        { subdomain := "zzz"
          companyId := none
          status := SubdomainStatus.pending
          registrationId := some "reg-1"
          createdAt := 0
          expiresAt := some (0 + sevenDaysMs)
          updatedAt := 0 })]) : SubStore) 1 "zzz" "reg-2" =
      (Except.error
        ("Failed to reserve subdomain: Subdomain is already reserved by different registration: "
          ++ "reg-1"),
       (([("zzz",
         { subdomain := "zzz"
           companyId := none
           status := SubdomainStatus.pending
           registrationId := some "reg-1"
           createdAt := 0
           expiresAt := some (0 + sevenDaysMs)
           updatedAt := 0 })]) : SubStore)) ∧
    getDoc
      (([("zzz",
        { subdomain := "zzz"
          companyId := none
          status := SubdomainStatus.pending
          registrationId := some "reg-1"
          createdAt := 0
          expiresAt := some (0 + sevenDaysMs)
          updatedAt := 0 })]) : SubStore) "zzz" = some
      { subdomain := "zzz"
        companyId := none
        status := SubdomainStatus.pending
        registrationId := some "reg-1"
        createdAt := 0
        expiresAt := some (0 + sevenDaysMs)
        updatedAt := 0 } :=
  reserve_conflict_names_competitor [] _ 0 1 "zzz" "reg-1" "reg-2"
    rfl rfl (by decide) (by decide)

/-- C4: an availability check on a valid subdomain whose record is pending
with `expiresAt` in the past returns available=true and deletes the record;
a second check afterwards still returns available=true, leaves the store
unchanged, and no record for the subdomain remains. -/
theorem checkAvailability_expired_reclaim_idempotent
    (st : SubStore) (now now2 : Nat) (s : String)
    (rec : SubdomainDocument) (t : Nat)
    (hlen : ¬ s.length < 3)
    (hres : jsToLowerCase s ∉ reservedSubdomains)
    (hget : getDoc st s = some rec)
    (hpend : rec.status = SubdomainStatus.pending)
    (hexp : rec.expiresAt = some t)
    (ht : t < now) :
    checkSubdomainAvailability st now s none =
      ({ available := true, status := none }, deleteDoc st s) ∧
    getDoc (deleteDoc st s) s = none ∧
    checkSubdomainAvailability (deleteDoc st s) now2 s none =
      ({ available := true, status := none }, deleteDoc st s) := by
  have hdel := getDoc_deleteDoc_self st s
  refine ⟨?_, hdel, ?_⟩
  · simp [checkSubdomainAvailability, hlen, hres, hget, matchesExclusion,
      hpend, hexp, ht]
  · simp [checkSubdomainAvailability, hlen, hres, hdel]

/-- Witness for C4 at `s = "zzz"` with a reservation expired at `t = 0`. -/
theorem checkAvailability_expired_reclaim_idempotent_witness :
    checkSubdomainAvailability
      (([("zzz",
        { subdomain := "zzz"
          companyId := none
          status := SubdomainStatus.pending
          registrationId := some "reg-2"
          createdAt := 0
          expiresAt := some 0
          updatedAt := 0 })]) : SubStore) 10 "zzz" none =
      ({ available := true, status := none },
       deleteDoc
        (([("zzz",
          { subdomain := "zzz"
            companyId := none
            status := SubdomainStatus.pending
            registrationId := some "reg-2"
            createdAt := 0
            expiresAt := some 0
            updatedAt := 0 })]) : SubStore) "zzz") ∧
    getDoc
      (deleteDoc
        (([("zzz",
          { subdomain := "zzz"
            companyId := none
            status := SubdomainStatus.pending
            registrationId := some "reg-2"
            createdAt := 0
            expiresAt := some 0
            updatedAt := 0 })]) : SubStore) "zzz") "zzz" = none ∧
    checkSubdomainAvailability
      (deleteDoc
        (([("zzz",
          { subdomain := "zzz"
            companyId := none
            status := SubdomainStatus.pending
            registrationId := some "reg-2"
            createdAt := 0
            expiresAt := some 0
            updatedAt := 0 })]) : SubStore) "zzz") 11 "zzz" none =
      ({ available := true, status := none },
       deleteDoc
        (([("zzz",
          { subdomain := "zzz"
            companyId := none
            status := SubdomainStatus.pending
            registrationId := some "reg-2"
            createdAt := 0
            expiresAt := some 0
            updatedAt := 0 })]) : SubStore) "zzz") :=
  checkAvailability_expired_reclaim_idempotent _ 10 11 "zzz" _ 0
    (by decide) (by decide) rfl rfl rfl (by decide)

/-- C6: activating an existing record for a valid subdomain succeeds, the
record afterwards has the company id, status active and no `expiresAt`, and
an availability check without exclusion then reports available=false with
status `"taken"` and leaves the store unchanged. -/
theorem activate_then_check_taken
    (st : SubStore) (now now2 : Nat) (s cid : String)
    (rec : SubdomainDocument)
    (hlen : ¬ s.length < 3)
    (hres : jsToLowerCase s ∉ reservedSubdomains)
    (hget : getDoc st s = some rec) :
    ∃ st1, activateSubdomain st now s cid = (Except.ok (), st1) ∧
      getDoc st1 s = some
        { rec with
          companyId := some cid
          status := SubdomainStatus.active
          expiresAt := none
          updatedAt := now } ∧
      checkSubdomainAvailability st1 now2 s none =
        ({ available := false, status := some "taken" }, st1) := by
  refine ⟨updateDoc st s (fun r =>
    { r with
      companyId := some cid
      status := SubdomainStatus.active
      expiresAt := none
      updatedAt := now }), ?_, ?_, ?_⟩
  · simp [activateSubdomain, hget]
  · rw [getDoc_updateDoc_self, hget]
    rfl
  · have hget1 : getDoc (updateDoc st s (fun r =>
        { r with
          companyId := some cid
          status := SubdomainStatus.active
          expiresAt := none
          updatedAt := now })) s = some
        { rec with
          companyId := some cid
          status := SubdomainStatus.active
          expiresAt := none
          updatedAt := now } := by
      rw [getDoc_updateDoc_self, hget]; rfl
    simp [checkSubdomainAvailability, hlen, hres, hget1, matchesExclusion]

/-- Witness for C6 at `s = "zzz"`, `cid = "comp-1"`. -/
theorem activate_then_check_taken_witness :
    ∃ st1, activateSubdomain
      (([("zzz",
        { subdomain := "zzz"
          companyId := none
          status := SubdomainStatus.pending
          registrationId := some "reg-1"
          createdAt := 0
          expiresAt := some sevenDaysMs
          updatedAt := 0 })]) : SubStore) 5 "zzz" "comp-1" =
        (Except.ok (), st1) ∧
      getDoc st1 "zzz" = some
        { subdomain := "zzz"
          companyId := some "comp-1"
          status := SubdomainStatus.active
          registrationId := some "reg-1"
          createdAt := 0
          expiresAt := none
          updatedAt := 5 } ∧
      checkSubdomainAvailability st1 6 "zzz" none =
        ({ available := false, status := some "taken" }, st1) :=
  activate_then_check_taken
    (([("zzz",
      { subdomain := "zzz"
        companyId := none
        status := SubdomainStatus.pending
        registrationId := some "reg-1"
        createdAt := 0
        expiresAt := some sevenDaysMs
        updatedAt := 0 })]) : SubStore) 5 6 "zzz" "comp-1"
    { subdomain := "zzz"
      companyId := none
      status := SubdomainStatus.pending
      registrationId := some "reg-1"
      createdAt := 0
      expiresAt := some sevenDaysMs
      updatedAt := 0 }
    (by decide) (by decide) rfl

/-- C10: activation does not clear `registrationId`, and the self-exclusion
comparison runs before the active-status check, so after activation a check
that passes the original registration id still reports available=true. -/
theorem activated_subdomain_still_available_to_owner
    (st : SubStore) (now now2 : Nat) (s cid r : String)
    (rec : SubdomainDocument)
    (hlen : ¬ s.length < 3)
    (hres : jsToLowerCase s ∉ reservedSubdomains)
    (hget : getDoc st s = some rec)
    (hrid : rec.registrationId = some r)
    (hr : r ≠ "") :
    ∃ st1, activateSubdomain st now s cid = (Except.ok (), st1) ∧
      (∃ rec', getDoc st1 s = some rec' ∧
        rec'.registrationId = some r ∧
        rec'.status = SubdomainStatus.active) ∧
      checkSubdomainAvailability st1 now2 s (some r) =
        ({ available := true, status := none }, st1) := by
  refine ⟨updateDoc st s (fun rc =>
    { rc with
      companyId := some cid
      status := SubdomainStatus.active
      expiresAt := none
      updatedAt := now }), ?_, ?_, ?_⟩
  · simp [activateSubdomain, hget]
  · refine ⟨{ rec with
      companyId := some cid
      status := SubdomainStatus.active
      expiresAt := none
      updatedAt := now }, ?_, hrid, rfl⟩
    rw [getDoc_updateDoc_self, hget]
    rfl
  · have hget1 : getDoc (updateDoc st s (fun rc =>
        { rc with
          companyId := some cid
          status := SubdomainStatus.active
          expiresAt := none
          updatedAt := now })) s = some
        { rec with
          companyId := some cid
          status := SubdomainStatus.active
          expiresAt := none
          updatedAt := now } := by
      rw [getDoc_updateDoc_self, hget]; rfl
    have hex : matchesExclusion (some r)
        ({ rec with
           companyId := some cid
           status := SubdomainStatus.active
           expiresAt := none
           updatedAt := now } : SubdomainDocument).registrationId = true := by
      simp [matchesExclusion, hrid, hr]
    simp [checkSubdomainAvailability, hlen, hres, hget1, hex]

/-- Witness for C10 at `s = "zzz"`, `r = "reg-1"`. -/
theorem activated_subdomain_still_available_to_owner_witness :
    ∃ st1, activateSubdomain
      (([("zzz",
        { subdomain := "zzz"
          companyId := none
          status := SubdomainStatus.pending
          registrationId := some "reg-1"
          createdAt := 0
          expiresAt := some sevenDaysMs
          updatedAt := 0 })]) : SubStore) 5 "zzz" "comp-1" =
        (Except.ok (), st1) ∧
      (∃ rec', getDoc st1 "zzz" = some rec' ∧
        rec'.registrationId = some "reg-1" ∧
        rec'.status = SubdomainStatus.active) ∧
      checkSubdomainAvailability st1 6 "zzz" (some "reg-1") =
        ({ available := true, status := none }, st1) :=
  activated_subdomain_still_available_to_owner
    (([("zzz",
      { subdomain := "zzz"
        companyId := none
        status := SubdomainStatus.pending
        registrationId := some "reg-1"
        createdAt := 0
        expiresAt := some sevenDaysMs
        updatedAt := 0 })]) : SubStore) 5 6 "zzz" "comp-1" "reg-1"
    { subdomain := "zzz"
      companyId := none
      status := SubdomainStatus.pending
      registrationId := some "reg-1"
      createdAt := 0
      expiresAt := some sevenDaysMs
      updatedAt := 0 }
    (by decide) (by decide) rfl rfl (by decide)

/-- C5 counterexample: `reserveSubdomain` does not look at `expiresAt`.
With a pending record for `"zzz"` owned by `"reg-2"` whose `expiresAt = 0`
is already in the past at call time 10, a direct
`reserveSubdomain "zzz" "reg-3"` still fails with the ConflictError (and
leaves the expired record in place), contradicting the claim that such a
reserve succeeds. -/
theorem reserve_expired_other_owner_counterexample :
    (0 : Nat) < 10 ∧
    reserveSubdomain
      (([("zzz",
        { subdomain := "zzz"
          companyId := none
          status := SubdomainStatus.pending
          registrationId := some "reg-2"
          createdAt := 0
          expiresAt := some 0
          updatedAt := 0 })]) : SubStore) 10 "zzz" "reg-3" =
      (Except.error
        "Failed to reserve subdomain: Subdomain is already reserved by different registration: reg-2",
       (([("zzz",
         { subdomain := "zzz"
           companyId := none
           status := SubdomainStatus.pending
           registrationId := some "reg-2"
           createdAt := 0
           expiresAt := some 0
           updatedAt := 0 })]) : SubStore)) :=
  ⟨by decide, rfl⟩

/-- C5 amended: `reserveSubdomain` raises the ConflictError whenever the
existing record has a different owner, expired or not; the spec's expiry
scenario succeeds only because `checkSubdomainAvailability` runs first and
lazily deletes the expired record — after that check reports
available=true, a reserve by the new registration succeeds without
ConflictError and installs a fresh pending reservation. -/
theorem reserve_succeeds_after_check_reclaims_expired
    (st : SubStore) (now : Nat) (s r2 r3 : String)
    (rec : SubdomainDocument) (t : Nat)
    (hlen : ¬ s.length < 3)
    (hres : jsToLowerCase s ∉ reservedSubdomains)
    (hget : getDoc st s = some rec)
    (hpend : rec.status = SubdomainStatus.pending)
    (hown : rec.registrationId = some r2)
    (hne : r2 ≠ r3)
    (hexp : rec.expiresAt = some t)
    (ht : t < now) :
    (checkSubdomainAvailability st now s none).1 =
      { available := true, status := none } ∧
    reserveSubdomain (checkSubdomainAvailability st now s none).2 now s r3 =
      (Except.ok (),
       setDoc (deleteDoc st s) s
         { subdomain := s
           companyId := none
           status := SubdomainStatus.pending
           registrationId := some r3
           createdAt := now
           expiresAt := some (now + sevenDaysMs)
           updatedAt := now }) ∧
    getDoc
      (setDoc (deleteDoc st s) s
        { subdomain := s
          companyId := none
          status := SubdomainStatus.pending
          registrationId := some r3
          createdAt := now
          expiresAt := some (now + sevenDaysMs)
          updatedAt := now }) s = some
      { subdomain := s
        companyId := none
        status := SubdomainStatus.pending
        registrationId := some r3
        createdAt := now
        expiresAt := some (now + sevenDaysMs)
        updatedAt := now } := by
  have hcheck : checkSubdomainAvailability st now s none =
      ({ available := true, status := none }, deleteDoc st s) := by
    simp [checkSubdomainAvailability, hlen, hres, hget, matchesExclusion,
      hpend, hexp, ht]
  refine ⟨by rw [hcheck], ?_, getDoc_setDoc_self _ _ _⟩
  rw [hcheck]
  simp [reserveSubdomain, getDoc_deleteDoc_self]

/-- Witness for the amended C5 at the spec scenario
(`s = "zzz"`, expired owner `"reg-2"`, new registration `"reg-3"`). -/
theorem reserve_succeeds_after_check_reclaims_expired_witness :
    (checkSubdomainAvailability
      (([("zzz",
        { subdomain := "zzz"
          companyId := none
          status := SubdomainStatus.pending
          registrationId := some "reg-2"
          createdAt := 0
          expiresAt := some 0
          updatedAt := 0 })]) : SubStore) 10 "zzz" none).1 =
      { available := true, status := none } ∧
    reserveSubdomain
      (checkSubdomainAvailability
        (([("zzz",
          { subdomain := "zzz"
            companyId := none
            status := SubdomainStatus.pending
            registrationId := some "reg-2"
            createdAt := 0
            expiresAt := some 0
            updatedAt := 0 })]) : SubStore) 10 "zzz" none).2 10 "zzz" "reg-3" =
      (Except.ok (),
       setDoc
         (deleteDoc
           (([("zzz",
             { subdomain := "zzz"
               companyId := none
               status := SubdomainStatus.pending
               registrationId := some "reg-2"
               createdAt := 0
               expiresAt := some 0
               updatedAt := 0 })]) : SubStore) "zzz") "zzz"
         { subdomain := "zzz"
           companyId := none
           status := SubdomainStatus.pending
           registrationId := some "reg-3"
           createdAt := 10
           expiresAt := some (10 + sevenDaysMs)
           updatedAt := 10 }) ∧
    getDoc
      (setDoc
        (deleteDoc
          (([("zzz",
            { subdomain := "zzz"
              companyId := none
              status := SubdomainStatus.pending
              registrationId := some "reg-2"
              createdAt := 0
              expiresAt := some 0
              updatedAt := 0 })]) : SubStore) "zzz") "zzz"
        { subdomain := "zzz"
          companyId := none
          status := SubdomainStatus.pending
          registrationId := some "reg-3"
          createdAt := 10
          expiresAt := some (10 + sevenDaysMs)
          updatedAt := 10 }) "zzz" = some
      { subdomain := "zzz"
        companyId := none
        status := SubdomainStatus.pending
        registrationId := some "reg-3"
        createdAt := 10
        expiresAt := some (10 + sevenDaysMs)
        updatedAt := 10 } :=
  reserve_succeeds_after_check_reclaims_expired
    (([("zzz",
      { subdomain := "zzz"
        companyId := none
        status := SubdomainStatus.pending
        registrationId := some "reg-2"
        createdAt := 0
        expiresAt := some 0
        updatedAt := 0 })]) : SubStore) 10 "zzz" "reg-2" "reg-3"
    { subdomain := "zzz"
      companyId := none
      status := SubdomainStatus.pending
      registrationId := some "reg-2"
      createdAt := 0
      expiresAt := some 0
      updatedAt := 0 } 0
    (by decide) (by decide) rfl rfl rfl (by decide) rfl (by decide)

/-- C7: `getRegistration` returns `null` when the draft document is missing
or its `expiresAt` has passed; an expired draft is never returned. -/
theorem getRegistration_none_of_missing_or_expired
    (st : DraftStore) (now : Nat) (rid : String)
    (h : getDoc st rid = none ∨
         ∃ d t, getDoc st rid = some d ∧ d.expiresAt = some t ∧ t < now) :
    getRegistration st now rid = none := by
  rcases h with h | ⟨d, t, hd, he, ht⟩
  · simp [getRegistration, h]
  · simp [getRegistration, hd, he, ht]

/-- Witness for C7: a draft that expired at time 3 is not returned at
time 4. -/
theorem getRegistration_none_of_missing_or_expired_witness :
    getRegistration
      (([("reg-1",
        { registrationId := some "reg-1"
          currentStep := some 1
          completedSteps := some [1]
          expiresAt := some 3 })]) : DraftStore) 4 "reg-1" = none :=
  getRegistration_none_of_missing_or_expired _ 4 "reg-1"
    (Or.inr ⟨{ registrationId := some "reg-1"
               currentStep := some 1
               completedSteps := some [1]
               expiresAt := some 3 }, 3, rfl, rfl, by decide⟩)

/-- C2: on a draft with both required payloads present and a previously
reserved subdomain record, `activateTrialAndCreateCompany` creates the
company document, activates the subdomain record for the new company id,
marks the draft completed (`companyCreated = true`, `companyId` set) and
returns the draft's subdomain string. -/
theorem activateTrial_creates_company_and_returns_subdomain
    (state : ServerState) (now : Nat) (rid cid : String)
    (d : RegistrationData) (ci : CompanyInfoFormData)
    (aa : AdminAccountFormData) (trial : TrialActivationFormData)
    (rec : SubdomainDocument)
    (hd : getDoc state.drafts rid = some d)
    (hci : d.companyInfo = some ci)
    (haa : d.adminAccount = some aa)
    (hsub : getDoc state.subdomains aa.subdomain = some rec) :
    ∃ state2,
      activateTrialAndCreateCompany state now rid trial cid =
        (Except.ok aa.subdomain, state2) ∧
      (∃ c, getDoc state2.companies cid = some c ∧
        c.name = ci.companyName ∧ c.subdomain = aa.subdomain) ∧
      (∃ rec', getDoc state2.subdomains aa.subdomain = some rec' ∧
        rec'.status = SubdomainStatus.active ∧ rec'.companyId = some cid) ∧
      (∃ d', getDoc state2.drafts rid = some d' ∧
        d'.companyCreated = some true ∧ d'.companyId = some cid) := by
  have hd1 : getDoc (updateDoc state.drafts rid (fun dd =>
      { dd with
        trialActivation := some trial
        currentStep := some 3
        completedSteps := some [1, 2, 3]
        updatedAt := some now })) rid =
      some { d with
        trialActivation := some trial
        currentStep := some 3
        completedSteps := some [1, 2, 3]
        updatedAt := some now } := by
    rw [getDoc_updateDoc_self, hd]; rfl
  refine ⟨⟨updateDoc state.subdomains aa.subdomain (fun rc =>
        { rc with
          companyId := some cid
          status := SubdomainStatus.active
          expiresAt := none
          updatedAt := now }),
      updateDoc (updateDoc state.drafts rid (fun dd =>
        { dd with
          trialActivation := some trial
          currentStep := some 3
          completedSteps := some [1, 2, 3]
          updatedAt := some now })) rid (fun dd =>
        { dd with
          companyCreated := some true
          companyId := some cid
          completedAt := some now }),
      setDoc state.companies cid
        { id := cid
          name := ci.companyName
          industry := ci.industry
          address := ci.address
          subdomain := aa.subdomain
          adminName := aa.fullName
          adminEmail := aa.email
          adminPhone := aa.phone
          subscription :=
            { plan := "trial"
              status := "trial"
              trialStartDate := now
              trialEndDate := now + fourteenDaysMs }
          setupProgress :=
            { companyInfo := true
              adminAccount := true
              businessDetails := false
              firstEmployee := false
              paymentMethod := false
              kioskSetup := false
              bankIntegration := false }
          createdAt := now
          updatedAt := now }⟩, ?_, ?_, ?_, ?_⟩
  · simp only [activateTrialAndCreateCompany, hd,
      createCompanyFromRegistration, hd1, hci, haa, activateSubdomain, hsub]
  · exact ⟨_, getDoc_setDoc_self _ _ _, rfl, rfl⟩
  · refine ⟨{ rec with
      companyId := some cid
      status := SubdomainStatus.active
      expiresAt := none
      updatedAt := now }, ?_, rfl, rfl⟩
    show getDoc (updateDoc state.subdomains aa.subdomain (fun rc =>
        { rc with
          companyId := some cid
          status := SubdomainStatus.active
          expiresAt := none
          updatedAt := now })) aa.subdomain = some
        { rec with
          companyId := some cid
          status := SubdomainStatus.active
          expiresAt := none
          updatedAt := now }
    rw [getDoc_updateDoc_self, hsub]; rfl
  · refine ⟨{ d with
      trialActivation := some trial
      currentStep := some 3
      completedSteps := some [1, 2, 3]
      updatedAt := some now
      companyCreated := some true
      companyId := some cid
      completedAt := some now }, ?_, rfl, rfl⟩
    show getDoc (updateDoc (updateDoc state.drafts rid (fun dd =>
        { dd with
          trialActivation := some trial
          currentStep := some 3
          completedSteps := some [1, 2, 3]
          updatedAt := some now })) rid (fun dd =>
        { dd with
          companyCreated := some true
          companyId := some cid
          completedAt := some now })) rid = some
        { d with
          trialActivation := some trial
          currentStep := some 3
          completedSteps := some [1, 2, 3]
          updatedAt := some now
          companyCreated := some true
          companyId := some cid
          completedAt := some now }
    rw [getDoc_updateDoc_self, hd1]; rfl

/-- Witness for C2: one draft with both payloads, one pending reservation
for `"zzz"`, empty companies collection. -/
theorem activateTrial_creates_company_and_returns_subdomain_witness :
    ∃ state2,
      activateTrialAndCreateCompany
        { subdomains :=
            [("zzz",
              { subdomain := "zzz"
                companyId := none
                status := SubdomainStatus.pending
                registrationId := some "reg-1"
                createdAt := 0
                expiresAt := some sevenDaysMs
                updatedAt := 0 })]
          drafts :=
            [("reg-1",
              { registrationId := some "reg-1"
                companyInfo := some
                  { companyName := "Acme Manufacturing"
                    industry := "Manufacturing"
                    address := "1 Main St" }
                adminAccount := some
                  { fullName := "Ana Cruz"
                    email := "ana@acme.ph"
                    phone := "0917"
                    password := "secret12"
                    confirmPassword := "secret12"
                    subdomain := "zzz" }
                currentStep := some 2
                completedSteps := some [1, 2]
                createdAt := some 0
                updatedAt := some 1
                expiresAt := some sevenDaysMs })]
          companies := [] } 5 "reg-1"
        { termsAccepted := true
          privacyAccepted := true
          marketingOptIn := false } "comp-1" =
        (Except.ok "zzz", state2) ∧
      (∃ c, getDoc state2.companies "comp-1" = some c ∧
        c.name = "Acme Manufacturing" ∧ c.subdomain = "zzz") ∧
      (∃ rec', getDoc state2.subdomains "zzz" = some rec' ∧
        rec'.status = SubdomainStatus.active ∧
        rec'.companyId = some "comp-1") ∧
      (∃ d', getDoc state2.drafts "reg-1" = some d' ∧
        d'.companyCreated = some true ∧ d'.companyId = some "comp-1") :=
  activateTrial_creates_company_and_returns_subdomain _ 5 "reg-1" "comp-1"
    { registrationId := some "reg-1"
      companyInfo := some
        { companyName := "Acme Manufacturing"
          industry := "Manufacturing"
          address := "1 Main St" }
      adminAccount := some
        { fullName := "Ana Cruz"
          email := "ana@acme.ph"
          phone := "0917"
          password := "secret12"
          confirmPassword := "secret12"
          subdomain := "zzz" }
      currentStep := some 2
      completedSteps := some [1, 2]
      createdAt := some 0
      updatedAt := some 1
      expiresAt := some sevenDaysMs }
    { companyName := "Acme Manufacturing"
      industry := "Manufacturing"
      address := "1 Main St" }
    { fullName := "Ana Cruz"
      email := "ana@acme.ph"
      phone := "0917"
      password := "secret12"
      confirmPassword := "secret12"
      subdomain := "zzz" }
    { termsAccepted := true
      privacyAccepted := true
      marketingOptIn := false }
    { subdomain := "zzz"
      companyId := none
      status := SubdomainStatus.pending
      registrationId := some "reg-1"
      createdAt := 0
      expiresAt := some sevenDaysMs
      updatedAt := 0 }
    rfl rfl rfl rfl

/-- Step-1 payload used in the C3 run. -/
def c3companyInfo : CompanyInfoFormData :=
  { companyName := "Acme Manufacturing"
    industry := "Manufacturing"
    address := "1 Main St" }

/-- Step-2 payload used in the C3 run. -/
def c3adminAccount : AdminAccountFormData :=
  { fullName := "Ana Cruz"
    email := "ana@acme.ph"
    phone := "0917"
    password := "secret12"
    confirmPassword := "secret12"
    subdomain := "zzz" }

/-- C3 counterexample: the step savers write fixed arrays, not a set union.
After step 1 and step 2 are saved (`completedSteps = [1, 2]`), saving
step 1 again resets `completedSteps` to `[1]`, erasing the completed
marker for step 2 — refuting the universal claim for `i = 2`, `j = 1`. -/
theorem saveStep_set_union_counterexample :
    (saveAdminAccount ([] : SubStore)
      (saveCompanyInfo ([] : DraftStore) 0 "reg-1" c3companyInfo)
      1 "reg-1" c3adminAccount).1 = Except.ok () ∧
    (getDoc
      (saveAdminAccount ([] : SubStore)
        (saveCompanyInfo ([] : DraftStore) 0 "reg-1" c3companyInfo)
        1 "reg-1" c3adminAccount).2.2 "reg-1").map
      RegistrationData.completedSteps = some (some [1, 2]) ∧
    (getDoc
      (saveCompanyInfo
        (saveAdminAccount ([] : SubStore)
          (saveCompanyInfo ([] : DraftStore) 0 "reg-1" c3companyInfo)
          1 "reg-1" c3adminAccount).2.2
        2 "reg-1" c3companyInfo) "reg-1").map
      RegistrationData.completedSteps = some (some [1]) :=
  ⟨rfl, rfl, rfl⟩

/-- C3 amended: saving step 1 and then step 2 yields
`completedSteps = [1, 2]` (the forward order of the wizard preserves the
earlier marker, because each saver writes the full prefix of steps); the
update is a fixed-array write rather than a set union, so re-saving an
earlier step resets the array and erases later markers. -/
theorem saveStep_one_then_two_completedSteps
    (subs : SubStore) (drafts : DraftStore) (now1 now2 : Nat) (rid : String)
    (ci : CompanyInfoFormData) (aa : AdminAccountFormData)
    (hres : getDoc subs aa.subdomain = none ∨
      ∃ rec, getDoc subs aa.subdomain = some rec ∧
        rec.registrationId = some rid) :
    ∃ subs' drafts2,
      saveAdminAccount subs (saveCompanyInfo drafts now1 rid ci) now2 rid aa =
        (Except.ok (), subs', drafts2) ∧
      ∃ d, getDoc drafts2 rid = some d ∧
        d.completedSteps = some [1, 2] ∧
        d.companyInfo = some ci ∧ d.adminAccount = some aa := by
  have hd1 : getDoc (saveCompanyInfo drafts now1 rid ci) rid =
      some { (getDoc drafts rid).getD {} with
        registrationId := some rid
        companyInfo := some ci
        currentStep := some 1
        completedSteps := some [1]
        createdAt := some now1
        updatedAt := some now1
        expiresAt := some (now1 + sevenDaysMs) } :=
    getDoc_setDoc_self _ _ _
  rcases hres with hnone | ⟨rec, hrec, hrid⟩
  · refine ⟨setDoc subs aa.subdomain
        { subdomain := aa.subdomain
          companyId := none
          status := SubdomainStatus.pending
          registrationId := some rid
          createdAt := now2
          expiresAt := some (now2 + sevenDaysMs)
          updatedAt := now2 },
      updateDoc (saveCompanyInfo drafts now1 rid ci) rid (fun dd =>
        { dd with
          adminAccount := some aa
          currentStep := some 2
          completedSteps := some [1, 2]
          updatedAt := some now2 }), ?_, ?_⟩
    · simp only [saveAdminAccount, reserveSubdomain, hnone, hd1]
    · refine ⟨{ (getDoc drafts rid).getD {} with
        registrationId := some rid
        companyInfo := some ci
        adminAccount := some aa
        currentStep := some 2
        completedSteps := some [1, 2]
        createdAt := some now1
        updatedAt := some now2
        expiresAt := some (now1 + sevenDaysMs) }, ?_, rfl, rfl, rfl⟩
      rw [getDoc_updateDoc_self, hd1]; rfl
  · have hbeq : (rec.registrationId == some rid) = true := by
      simp [hrid]
    refine ⟨updateDoc subs aa.subdomain (fun r => { r with updatedAt := now2 }),
      updateDoc (saveCompanyInfo drafts now1 rid ci) rid (fun dd =>
        { dd with
          adminAccount := some aa
          currentStep := some 2
          completedSteps := some [1, 2]
          updatedAt := some now2 }), ?_, ?_⟩
    · simp only [saveAdminAccount, reserveSubdomain, hrec, hbeq, hd1,
        if_true, cond_true]
    · refine ⟨{ (getDoc drafts rid).getD {} with
        registrationId := some rid
        companyInfo := some ci
        adminAccount := some aa
        currentStep := some 2
        completedSteps := some [1, 2]
        createdAt := some now1
        updatedAt := some now2
        expiresAt := some (now1 + sevenDaysMs) }, ?_, rfl, rfl, rfl⟩
      rw [getDoc_updateDoc_self, hd1]; rfl

/-- Witness for the amended C3 on empty stores. -/
theorem saveStep_one_then_two_completedSteps_witness :
    ∃ subs' drafts2,
      saveAdminAccount ([] : SubStore)
        (saveCompanyInfo ([] : DraftStore) 0 "reg-1" c3companyInfo)
        1 "reg-1" c3adminAccount = (Except.ok (), subs', drafts2) ∧
      ∃ d, getDoc drafts2 "reg-1" = some d ∧
        d.completedSteps = some [1, 2] ∧
        d.companyInfo = some c3companyInfo ∧
        d.adminAccount = some c3adminAccount :=
  saveStep_one_then_two_completedSteps [] [] 0 1 "reg-1"
    c3companyInfo c3adminAccount (Or.inl rfl)

/-- An availability check never deletes or demotes an active record: its
lazy deletion only fires on a pending record. -/
theorem check_preserves_active
    (st : SubStore) (now : Nat) (s q : String) (ex : Option String)
    (rec : SubdomainDocument)
    (hget : getDoc st s = some rec)
    (hactive : rec.status = SubdomainStatus.active) :
    ∃ r', getDoc (checkSubdomainAvailability st now q ex).2 s = some r' ∧
      r'.status = SubdomainStatus.active := by
  refine ⟨rec, ?_, hactive⟩
  by_cases hqs : q = s
  · subst hqs
    rcases hexp : rec.expiresAt with _ | t <;>
      simp only [checkSubdomainAvailability, hget, hactive, hexp] <;>
      split_ifs <;> simp [hget]
  · have hsne : s ≠ q := fun hc => hqs hc.symm
    have hdel := getDoc_deleteDoc_ne st q s hsne
    rcases hq2 : getDoc st q with _ | data
    · simp only [checkSubdomainAvailability, hq2]
      split_ifs <;> simp [hget]
    · rcases hst : data.status <;> rcases hexp : data.expiresAt with _ | t <;>
        simp only [checkSubdomainAvailability, hq2, hst, hexp] <;>
        split_ifs <;> simp [hget, hdel]

/-- A reserve call never deletes or demotes an active record: on an
existing record it either refreshes `updatedAt` or throws; a fresh create
touches only its own key. -/
theorem reserve_preserves_active
    (st : SubStore) (now : Nat) (s q rid : String)
    (rec : SubdomainDocument)
    (hget : getDoc st s = some rec)
    (hactive : rec.status = SubdomainStatus.active) :
    ∃ r', getDoc (reserveSubdomain st now q rid).2 s = some r' ∧
      r'.status = SubdomainStatus.active := by
  by_cases hqs : q = s
  · subst hqs
    by_cases hb : (rec.registrationId == some rid) = true
    · refine ⟨{ rec with updatedAt := now }, ?_, hactive⟩
      simp only [reserveSubdomain, hget, hb, if_true]
      first
      | rfl
      | (rw [getDoc_updateDoc_self, hget]; rfl)
    · refine ⟨rec, ?_, hactive⟩
      simp only [Bool.not_eq_true] at hb
      simp only [reserveSubdomain, hget, hb, Bool.false_eq_true, if_false]
  · have hsne : s ≠ q := fun hc => hqs hc.symm
    refine ⟨rec, ?_, hactive⟩
    rcases hq2 : getDoc st q with _ | data
    · simp only [reserveSubdomain, hq2]
      rw [getDoc_setDoc_ne _ _ _ _ hsne]
      exact hget
    · by_cases hb : (data.registrationId == some rid) = true
      · simp only [reserveSubdomain, hq2, hb, if_true]
        rw [getDoc_updateDoc_ne _ _ _ _ hsne]
        exact hget
      · simp only [Bool.not_eq_true] at hb
        simp only [reserveSubdomain, hq2, hb, Bool.false_eq_true, if_false]
        exact hget

/-- An activation never deletes a record and only ever sets status to
`active`, so an active record stays active. -/
theorem activate_preserves_active
    (st : SubStore) (now : Nat) (s q cid : String)
    (rec : SubdomainDocument)
    (hget : getDoc st s = some rec)
    (hactive : rec.status = SubdomainStatus.active) :
    ∃ r', getDoc (activateSubdomain st now q cid).2 s = some r' ∧
      r'.status = SubdomainStatus.active := by
  by_cases hqs : q = s
  · subst hqs
    refine ⟨{ rec with
      companyId := some cid
      status := SubdomainStatus.active
      expiresAt := none
      updatedAt := now }, ?_, rfl⟩
    simp only [activateSubdomain, hget]
    rw [getDoc_updateDoc_self, hget]; rfl
  · have hsne : s ≠ q := fun hc => hqs hc.symm
    refine ⟨rec, ?_, hactive⟩
    rcases hq2 : getDoc st q with _ | data <;>
      simp only [activateSubdomain, hq2]
    · exact hget
    · rw [getDoc_updateDoc_ne _ _ _ _ hsne]
      exact hget

/-- The expiry sweep deletes only pending records, so an active record
survives it. -/
theorem cleanup_preserves_active
    (st : SubStore) (now : Nat) (s : String)
    (rec : SubdomainDocument)
    (hget : getDoc st s = some rec)
    (hactive : rec.status = SubdomainStatus.active) :
    ∃ r', getDoc (cleanupExpiredReservations st now).2 s = some r' ∧
      r'.status = SubdomainStatus.active := by
  refine ⟨rec, ?_, hactive⟩
  have hkept : (fun p => !(isExpiredPending now p)) (s, rec) = true := by
    simp [isExpiredPending, hactive]
  by_cases hempty : (st.filter (isExpiredPending now)).isEmpty
  · simp only [cleanupExpiredReservations, hempty, if_true]
    exact hget
  · simp only [cleanupExpiredReservations, hempty, Bool.false_eq_true, if_false]
    exact getDoc_filter_of_kept st _ s rec hget hkept

/-- C9: no operation among availability checking (with its lazy delete),
reserve, activate and the expiry sweep ever deletes or demotes a record
whose status is `active` — `active` is terminal, matching the state
machine `(none) → pending → active`, with `pending → (none)` only via
expiry. -/
theorem active_record_never_deleted_or_demoted
    (st : SubStore) (now : Nat) (s q rid cid : String) (ex : Option String)
    (rec : SubdomainDocument)
    (hget : getDoc st s = some rec)
    (hactive : rec.status = SubdomainStatus.active) :
    (∃ r', getDoc (checkSubdomainAvailability st now q ex).2 s = some r' ∧
      r'.status = SubdomainStatus.active) ∧
    (∃ r', getDoc (reserveSubdomain st now q rid).2 s = some r' ∧
      r'.status = SubdomainStatus.active) ∧
    (∃ r', getDoc (activateSubdomain st now q cid).2 s = some r' ∧
      r'.status = SubdomainStatus.active) ∧
    (∃ r', getDoc (cleanupExpiredReservations st now).2 s = some r' ∧
      r'.status = SubdomainStatus.active) :=
  ⟨check_preserves_active st now s q ex rec hget hactive,
   reserve_preserves_active st now s q rid rec hget hactive,
   activate_preserves_active st now s q cid rec hget hactive,
   cleanup_preserves_active st now s rec hget hactive⟩

/-- Witness for C9: an active record for `"acme-co"` survives all four
operations aimed at `"zzz"` (and the sweep). -/
theorem active_record_never_deleted_or_demoted_witness :
    (∃ r', getDoc (checkSubdomainAvailability
      (([("acme-co",
        { subdomain := "acme-co"
          companyId := some "comp-1"
          status := SubdomainStatus.active
          registrationId := some "reg-1"
          createdAt := 0
          expiresAt := none
          updatedAt := 0 })]) : SubStore) 5 "zzz" none).2 "acme-co" =
        some r' ∧ r'.status = SubdomainStatus.active) ∧
    (∃ r', getDoc (reserveSubdomain
      (([("acme-co",
        { subdomain := "acme-co"
          companyId := some "comp-1"
          status := SubdomainStatus.active
          registrationId := some "reg-1"
          createdAt := 0
          expiresAt := none
          updatedAt := 0 })]) : SubStore) 5 "zzz" "reg-9").2 "acme-co" =
        some r' ∧ r'.status = SubdomainStatus.active) ∧
    (∃ r', getDoc (activateSubdomain
      (([("acme-co",
        { subdomain := "acme-co"
          companyId := some "comp-1"
          status := SubdomainStatus.active
          registrationId := some "reg-1"
          createdAt := 0
          expiresAt := none
          updatedAt := 0 })]) : SubStore) 5 "zzz" "comp-9").2 "acme-co" =
        some r' ∧ r'.status = SubdomainStatus.active) ∧
    (∃ r', getDoc (cleanupExpiredReservations
      (([("acme-co",
        { subdomain := "acme-co"
          companyId := some "comp-1"
          status := SubdomainStatus.active
          registrationId := some "reg-1"
          createdAt := 0
          expiresAt := none
          updatedAt := 0 })]) : SubStore) 5).2 "acme-co" =
        some r' ∧ r'.status = SubdomainStatus.active) :=
  active_record_never_deleted_or_demoted
    (([("acme-co",
      { subdomain := "acme-co"
        companyId := some "comp-1"
        status := SubdomainStatus.active
        registrationId := some "reg-1"
        createdAt := 0
        expiresAt := none
        updatedAt := 0 })]) : SubStore) 5 "acme-co" "zzz" "reg-9" "comp-9" none
    { subdomain := "acme-co"
      companyId := some "comp-1"
      status := SubdomainStatus.active
      registrationId := some "reg-1"
      createdAt := 0
      expiresAt := none
      updatedAt := 0 }
    rfl rfl

/-- A `subdomains` collection holding 501 pending reservations, all with
`expiresAt = 0` (in the past at any positive time). -/
def bigExpiredStore : SubStore :=
  (List.range 501).map (fun i =>
    (toString i,
     { subdomain := toString i
       companyId := none
       status := SubdomainStatus.pending
       registrationId := some "reg-sweep"
       createdAt := 0
       expiresAt := some 0
       updatedAt := 0 }))

set_option maxRecDepth 10000 in
/-- C8: `cleanupExpiredReservations` puts all matched documents into one
single `writeBatch` — with 501 expired pending reservations the lone batch
carries 501 delete operations, exceeding the 500-operation batch cap that
the repository's own `cleanup.ts` documents and respects (it chunks at 500
for draft registrations); the count of 501 is still returned. -/
theorem cleanup_single_batch_exceeds_firestore_cap :
    (cleanupExpiredReservations bigExpiredStore 1).1 = 501 ∧
    (cleanupReservationBatches bigExpiredStore 1).map List.length = [501] ∧
    500 < 501 := by
  refine ⟨?_, ?_, by decide⟩ <;> rfl

end Sahod
